import Mathlib

/-
Verification of the simulation core of `game.py` (a two-player fighting
game).  Positions and velocities are Python floats, modelled here as
exact rationals (ℚ); timers and health are Python ints, modelled as ℤ.
Rendering, event handling and the clock are external collaborators and
are not modelled; key states are modelled as the resolved booleans that
`keys[fighter.controls[...]]` produces.  Each Python function is
translated statement by statement; the longer functions are split into
named stages (one stage per consecutive group of statements), composed
in source order.
-/

set_option autoImplicit false

namespace FightGame

/-- `WIDTH` from `game.py`: the arena width in pixels. -/
def WIDTH : ℤ := 900

/-- `HEIGHT` from `game.py`. -/
def HEIGHT : ℤ := 500

/-- `FLOOR_Y = HEIGHT - 80` from `game.py`. -/
def FLOOR_Y : ℤ := HEIGHT - 80

/-- `GRAVITY = 0.8` from `game.py` (exact: 4/5). -/
def GRAVITY : ℚ := 0.8

/-- `JUMP_FORCE = 16` from `game.py`. -/
def JUMP_FORCE : ℚ := 16

/-- `MOVE_SPEED = 6` from `game.py`. -/
def MOVE_SPEED : ℚ := 6

/-- `KNOCKBACK_X = 10` from `game.py` (used in float context). -/
def KNOCKBACK_X : ℚ := 10

/-- `KNOCKBACK_Y = 6` from `game.py` (used in float context). -/
def KNOCKBACK_Y : ℚ := 6

/-- `ATTACK_DURATION = 200` milliseconds, from `game.py`. -/
def ATTACK_DURATION : ℤ := 200

/-- `ATTACK_COOLDOWN = 400` milliseconds, from `game.py`. -/
def ATTACK_COOLDOWN : ℤ := 400

/-- `ATTACK_DAMAGE = 12` from `game.py`. -/
def ATTACK_DAMAGE : ℤ := 12

/-- The simulation-relevant fields of the `Fighter` dataclass in
`game.py`.  `name`, `color` and `controls` are omitted: they are opaque
to the simulation (controls are resolved into a `Keys` snapshot). -/
@[ext]
structure Fighter where
  x : ℚ
  y : ℚ
  width : ℤ
  height : ℤ
  facing : ℤ
  vx : ℚ
  vy : ℚ
  on_ground : Bool
  attack_timer : ℤ
  cooldown_timer : ℤ
  attack_hit : Bool
  health : ℤ
  deriving Repr, DecidableEq

/-- The resolved key states for one fighter's four bound actions, the
result of `keys[fighter.controls[...]]` lookups in `handle_input`. -/
structure Keys where
  left : Bool
  right : Bool
  jump : Bool
  attack : Bool
  deriving Repr, DecidableEq

/-- A `pygame.Rect`: integer position and size. -/
structure Rect where
  x : ℤ
  y : ℤ
  w : ℤ
  h : ℤ
  deriving Repr, DecidableEq

/-- Python `int(q)` on a float: truncation toward zero.  `Rat` keeps
`den > 0`, so T-division of `num` by `den` is exactly this. -/
def pytrunc (q : ℚ) : ℤ := Int.tdiv q.num q.den

/-- `Fighter.rect` property from `game.py`:
`pygame.Rect(int(self.x), int(self.y), self.width, self.height)`. -/
def Fighter.rect (f : Fighter) : Rect :=
  ⟨pytrunc f.x, pytrunc f.y, f.width, f.height⟩

/-- `Fighter.reset` from `game.py`: restore round-start state, keeping
geometry.  `start_pos` is passed as the two coordinates `sx`, `sy`. -/
def Fighter.reset (f : Fighter) (sx sy : ℚ) : Fighter :=
  { f with x := sx, y := sy, vx := 0, vy := 0, on_ground := false,
           attack_timer := 0, cooldown_timer := 0, attack_hit := false,
           health := 100, facing := 1 }

/-- `clamp(value, min_value, max_value)` from `game.py`:
`max(min_value, min(value, max_value))`. -/
def clamp (value min_value max_value : ℚ) : ℚ :=
  max min_value (min value max_value)

/-- `handle_input`, lines 61–70: reset `vx` to 0, then apply held
left/right movement (right is evaluated last and overwrites). -/
def move_step (f : Fighter) (keys : Keys) : Fighter :=
  let f1 := { f with vx := 0 }
  let f2 := if keys.left then { f1 with vx := -MOVE_SPEED, facing := -1 } else f1
  if keys.right then { f2 with vx := MOVE_SPEED, facing := 1 } else f2

/-- `handle_input`, lines 72–74: jump when held and grounded. -/
def jump_step (f : Fighter) (keys : Keys) : Fighter :=
  if keys.jump ∧ f.on_ground then
    { f with vy := -JUMP_FORCE, on_ground := false }
  else f

/-- `handle_input`, lines 76–80: start an attack when the attack key is
held and both timers have expired. -/
def attack_step (f : Fighter) (keys : Keys) : Fighter :=
  if keys.attack ∧ f.attack_timer ≤ 0 ∧ f.cooldown_timer ≤ 0 then
    { f with attack_timer := ATTACK_DURATION,
             cooldown_timer := ATTACK_COOLDOWN, attack_hit := false }
  else f

/-- `handle_input(fighter, keys)` from `game.py`: the three statement
groups in source order. -/
def handle_input (f : Fighter) (keys : Keys) : Fighter :=
  attack_step (jump_step (move_step f keys) keys) keys

/-- `apply_physics`, lines 84–87: `x += vx; vy += GRAVITY; y += vy`. -/
def integrate_step (f : Fighter) : Fighter :=
  let f1 := { f with x := f.x + f.vx }
  let f2 := { f1 with vy := f1.vy + GRAVITY }
  { f2 with y := f2.y + f2.vy }

/-- `apply_physics`, lines 89–94: floor collision and ground flag. -/
def floor_step (f : Fighter) : Fighter :=
  if f.y + (f.height : ℚ) ≥ (FLOOR_Y : ℚ) then
    { f with y := (FLOOR_Y : ℚ) - (f.height : ℚ), vy := 0, on_ground := true }
  else { f with on_ground := false }

/-- `apply_physics`, line 96: horizontal clamp. -/
def clamp_step (f : Fighter) : Fighter :=
  { f with x := clamp f.x 20 ((WIDTH : ℚ) - (f.width : ℚ) - 20) }

/-- `apply_physics`, lines 98–101: decay the two timers by `dt_ms` and
clear the hit flag when the attack window has ended. -/
def timer_step (f : Fighter) (dt_ms : ℤ) : Fighter :=
  let f1 := { f with attack_timer := max 0 (f.attack_timer - dt_ms),
                     cooldown_timer := max 0 (f.cooldown_timer - dt_ms) }
  if f1.attack_timer = 0 then { f1 with attack_hit := false } else f1

/-- `apply_physics(fighter, dt_ms)` from `game.py`: the four statement
groups in source order. -/
def apply_physics (f : Fighter) (dt_ms : ℤ) : Fighter :=
  timer_step (clamp_step (floor_step (integrate_step f))) dt_ms

/-- `get_attack_rect(fighter)` from `game.py`: `None` when no attack is
active, otherwise the attack hitbox (positions truncated by
`pygame.Rect`'s int conversion, as in the source). -/
def get_attack_rect (f : Fighter) : Option Rect :=
  if f.attack_timer ≤ 0 then none
  else
    let offset : ℚ := 30
    let attack_width : ℤ := 50
    let attack_height : ℤ := f.height - 10
    let x : ℚ := if f.facing = 1 then
        f.x + (f.width : ℚ) + offset - (attack_width : ℚ)
      else f.x - offset
    let y : ℚ := f.y + 5
    some ⟨pytrunc x, pytrunc y, attack_width, attack_height⟩

/-- `process_hit(attacker, defender)` from `game.py`: returns the updated
defender.  Knockback overwrites the defender's velocity. -/
def process_hit (attacker defender : Fighter) : Fighter :=
  { defender with
      health := max 0 (defender.health - ATTACK_DAMAGE),
      vx := KNOCKBACK_X * (attacker.facing : ℚ),
      vy := -KNOCKBACK_Y }

/-- `pygame.Rect.colliderect`: strict AABB overlap (touching edges do
not collide).  All rects the game tests have positive width and
height. -/
def colliderect (a b : Rect) : Bool :=
  decide (a.x < b.x + b.w) && decide (a.y < b.y + b.h) &&
  decide (b.x < a.x + a.w) && decide (b.y < a.y + a.h)

/-- One iteration of the combat loop in `main` (lines 192–197) for an
ordered (attacker, defender) pair:
`if attack_rect and not attacker.attack_hit:` then on overlap set
`attacker.attack_hit = True` and call `process_hit`.  `if attack_rect`
is Python truthiness of a `pygame.Rect`: non-`None` and nonzero sizes.
The third component reports whether a hit was applied. -/
def resolve_pair (attacker defender : Fighter) : Fighter × Fighter × Bool :=
  match get_attack_rect attacker with
  | none => (attacker, defender, false)
  | some r =>
    if (r.w ≠ 0 ∧ r.h ≠ 0) ∧ attacker.attack_hit = false ∧
        colliderect r defender.rect = true then
      ({ attacker with attack_hit := true }, process_hit attacker defender, true)
    else (attacker, defender, false)

/-- The whole game state: the two fighters. -/
structure Game where
  p1 : Fighter
  p2 : Fighter
  deriving Repr, DecidableEq

/-- `reset_game(p1, p2)` from `game.py`: reset both fighters to their
start positions (`WIDTH * 0.25 / 0.75`, centred on their own width,
resting on the floor). -/
def reset_game (g : Game) : Game :=
  ⟨g.p1.reset ((WIDTH : ℚ) * 0.25 - (g.p1.width : ℚ) / 2) ((FLOOR_Y : ℚ) - (g.p1.height : ℚ)),
   g.p2.reset ((WIDTH : ℚ) * 0.75 - (g.p2.width : ℚ) / 2) ((FLOOR_Y : ℚ) - (g.p2.height : ℚ))⟩

/-- The per-fighter part of one main-loop iteration (lines 186–190):
input application followed by physics integration. -/
def frame_fighter (f : Fighter) (k : Keys) (dt : ℤ) : Fighter :=
  apply_physics (handle_input f k) dt

/-- One iteration of the main loop's simulation part, in source order:
input for both fighters, physics for both, combat resolution for
(p1, p2) then (p2, p1), then the round-end check (lines 199–201) that
resets both fighters when either health is ≤ 0.  Returns the new state
together with flags recording whether p1 hit p2 and whether p2 hit p1
this tick. -/
def tickFull (g : Game) (k1 k2 : Keys) (dt_ms : ℤ) : Game × Bool × Bool :=
  let a1 := frame_fighter g.p1 k1 dt_ms
  let a2 := frame_fighter g.p2 k2 dt_ms
  let r1 := resolve_pair a1 a2
  let r2 := resolve_pair r1.2.1 r1.1
  let g1 : Game := ⟨r2.2.1, r2.1⟩
  if g1.p1.health ≤ 0 ∨ g1.p2.health ≤ 0 then (reset_game g1, r1.2.2, r2.2.2)
  else (g1, r1.2.2, r2.2.2)

/-- One simulation tick (the state part of `tickFull`). -/
def tick (g : Game) (k1 k2 : Keys) (dt_ms : ℤ) : Game :=
  (tickFull g k1 k2 dt_ms).1

/-- Number of hits p1 lands on p2 along a run, counted while p1's attack
activation is in progress: counting stops at the end of the first tick
after which `p1.attack_timer` is 0 (the activation, if any, is over). -/
def countHits : Game → List (Keys × Keys × ℤ) → ℕ
  | _, [] => 0
  | g, i :: rest =>
    let r := tickFull g i.1 i.2.1 i.2.2
    let n : ℕ := if r.2.1 then 1 else 0
    if r.1.p1.attack_timer = 0 then n else n + countHits r.1 rest

/-- Health invariant for a game state: both healths in [0, 100]. -/
def health_inv (g : Game) : Prop :=
  0 ≤ g.p1.health ∧ g.p1.health ≤ 100 ∧ 0 ≤ g.p2.health ∧ g.p2.health ≤ 100

instance (g : Game) : Decidable (health_inv g) := by
  unfold health_inv; infer_instance

/-! ### Projection lemmas for the input stages -/

@[simp] theorem move_step_timers (f : Fighter) (k : Keys) :
    (move_step f k).attack_timer = f.attack_timer ∧
    (move_step f k).cooldown_timer = f.cooldown_timer ∧
    (move_step f k).attack_hit = f.attack_hit ∧
    (move_step f k).health = f.health ∧
    (move_step f k).x = f.x ∧ (move_step f k).y = f.y ∧
    (move_step f k).width = f.width ∧ (move_step f k).height = f.height ∧
    (move_step f k).on_ground = f.on_ground := by
  simp only [move_step]
  split_ifs <;> simp

@[simp] theorem jump_step_timers (f : Fighter) (k : Keys) :
    (jump_step f k).attack_timer = f.attack_timer ∧
    (jump_step f k).cooldown_timer = f.cooldown_timer ∧
    (jump_step f k).attack_hit = f.attack_hit ∧
    (jump_step f k).health = f.health ∧
    (jump_step f k).x = f.x ∧ (jump_step f k).y = f.y ∧
    (jump_step f k).width = f.width ∧ (jump_step f k).height = f.height ∧
    (jump_step f k).vx = f.vx ∧ (jump_step f k).facing = f.facing := by
  simp only [jump_step]
  split_ifs <;> simp

theorem attack_step_char (f : Fighter) (k : Keys) :
    (attack_step f k).attack_timer =
      (if k.attack = true ∧ f.attack_timer ≤ 0 ∧ f.cooldown_timer ≤ 0 then
        ATTACK_DURATION else f.attack_timer) ∧
    (attack_step f k).cooldown_timer =
      (if k.attack = true ∧ f.attack_timer ≤ 0 ∧ f.cooldown_timer ≤ 0 then
        ATTACK_COOLDOWN else f.cooldown_timer) ∧
    (attack_step f k).attack_hit =
      (if k.attack = true ∧ f.attack_timer ≤ 0 ∧ f.cooldown_timer ≤ 0 then
        false else f.attack_hit) := by
  simp only [attack_step]
  split_ifs <;> simp

@[simp] theorem attack_step_rest (f : Fighter) (k : Keys) :
    (attack_step f k).x = f.x ∧ (attack_step f k).y = f.y ∧
    (attack_step f k).vx = f.vx ∧ (attack_step f k).vy = f.vy ∧
    (attack_step f k).width = f.width ∧ (attack_step f k).height = f.height ∧
    (attack_step f k).facing = f.facing ∧
    (attack_step f k).on_ground = f.on_ground ∧
    (attack_step f k).health = f.health := by
  simp only [attack_step]
  split_ifs <;> simp

/-! ### Projection lemmas for the physics stages -/

@[simp] theorem integrate_step_def (f : Fighter) :
    integrate_step f =
      { f with x := f.x + f.vx, vy := f.vy + GRAVITY,
               y := f.y + (f.vy + GRAVITY) } := by
  simp only [integrate_step]

theorem floor_step_char (f : Fighter) :
    floor_step f =
      if f.y + (f.height : ℚ) ≥ (FLOOR_Y : ℚ) then
        { f with y := (FLOOR_Y : ℚ) - (f.height : ℚ), vy := 0, on_ground := true }
      else { f with on_ground := false } := rfl

@[simp] theorem floor_step_rest (f : Fighter) :
    (floor_step f).x = f.x ∧ (floor_step f).vx = f.vx ∧
    (floor_step f).width = f.width ∧ (floor_step f).height = f.height ∧
    (floor_step f).facing = f.facing ∧
    (floor_step f).attack_timer = f.attack_timer ∧
    (floor_step f).cooldown_timer = f.cooldown_timer ∧
    (floor_step f).attack_hit = f.attack_hit ∧
    (floor_step f).health = f.health := by
  simp only [floor_step]
  split_ifs <;> simp

@[simp] theorem clamp_step_def (f : Fighter) :
    clamp_step f = { f with x := clamp f.x 20 ((WIDTH : ℚ) - (f.width : ℚ) - 20) } := rfl

theorem timer_step_char (f : Fighter) (dt : ℤ) :
    (timer_step f dt).attack_timer = max 0 (f.attack_timer - dt) ∧
    (timer_step f dt).cooldown_timer = max 0 (f.cooldown_timer - dt) ∧
    (timer_step f dt).attack_hit =
      (if max 0 (f.attack_timer - dt) = 0 then false else f.attack_hit) := by
  simp only [timer_step]
  split_ifs <;> simp_all

@[simp] theorem timer_step_rest (f : Fighter) (dt : ℤ) :
    (timer_step f dt).x = f.x ∧ (timer_step f dt).y = f.y ∧
    (timer_step f dt).vx = f.vx ∧ (timer_step f dt).vy = f.vy ∧
    (timer_step f dt).width = f.width ∧ (timer_step f dt).height = f.height ∧
    (timer_step f dt).facing = f.facing ∧
    (timer_step f dt).on_ground = f.on_ground ∧
    (timer_step f dt).health = f.health := by
  simp only [timer_step]
  split_ifs <;> simp

/-- Field-by-field characterization of `apply_physics`: each field of
the result, in terms of the input fighter. -/
theorem apply_physics_char (f : Fighter) (dt : ℤ) :
    (apply_physics f dt).x =
      clamp (f.x + f.vx) 20 ((WIDTH : ℚ) - (f.width : ℚ) - 20) ∧
    (apply_physics f dt).y =
      (if f.y + (f.vy + GRAVITY) + (f.height : ℚ) ≥ (FLOOR_Y : ℚ) then
        (FLOOR_Y : ℚ) - (f.height : ℚ) else f.y + (f.vy + GRAVITY)) ∧
    (apply_physics f dt).vx = f.vx ∧
    (apply_physics f dt).vy =
      (if f.y + (f.vy + GRAVITY) + (f.height : ℚ) ≥ (FLOOR_Y : ℚ) then 0
        else f.vy + GRAVITY) ∧
    (apply_physics f dt).on_ground =
      (if f.y + (f.vy + GRAVITY) + (f.height : ℚ) ≥ (FLOOR_Y : ℚ) then true
        else false) ∧
    (apply_physics f dt).attack_timer = max 0 (f.attack_timer - dt) ∧
    (apply_physics f dt).cooldown_timer = max 0 (f.cooldown_timer - dt) ∧
    (apply_physics f dt).attack_hit =
      (if max 0 (f.attack_timer - dt) = 0 then false else f.attack_hit) ∧
    (apply_physics f dt).width = f.width ∧
    (apply_physics f dt).height = f.height ∧
    (apply_physics f dt).facing = f.facing ∧
    (apply_physics f dt).health = f.health := by
  simp only [apply_physics, integrate_step, floor_step, clamp_step, timer_step]
  split_ifs <;> simp_all

/-! ### Combat-layer lemmas -/

@[simp] theorem process_hit_rest (a d : Fighter) :
    (process_hit a d).x = d.x ∧ (process_hit a d).y = d.y ∧
    (process_hit a d).width = d.width ∧ (process_hit a d).height = d.height ∧
    (process_hit a d).facing = d.facing ∧
    (process_hit a d).on_ground = d.on_ground ∧
    (process_hit a d).attack_timer = d.attack_timer ∧
    (process_hit a d).cooldown_timer = d.cooldown_timer ∧
    (process_hit a d).attack_hit = d.attack_hit := by
  simp [process_hit]

theorem get_attack_rect_none_iff (f : Fighter) :
    get_attack_rect f = none ↔ f.attack_timer ≤ 0 := by
  simp only [get_attack_rect]
  split_ifs with h <;> simp [h]

/-- Either `resolve_pair` is a no-op (no active hitbox, flag already set,
degenerate hitbox, or no overlap), or the attacker was active and
unflagged and a hit was applied. -/
theorem resolve_pair_spec (a d : Fighter) :
    resolve_pair a d = (a, d, false) ∨
    (0 < a.attack_timer ∧ a.attack_hit = false ∧
      resolve_pair a d = ({ a with attack_hit := true }, process_hit a d, true)) := by
  unfold resolve_pair
  cases hr : get_attack_rect a with
  | none => left; rfl
  | some r =>
    simp only []
    split_ifs with hc
    · right
      refine ⟨?_, hc.2.1, rfl⟩
      by_contra hle
      rw [(get_attack_rect_none_iff a).2 (by omega)] at hr
      exact Option.noConfusion hr
    · left; rfl

theorem resolve_pair_attacker (a d : Fighter) :
    (resolve_pair a d).1 = a ∨
    (resolve_pair a d).1 = { a with attack_hit := true } := by
  rcases resolve_pair_spec a d with h | ⟨_, _, h⟩ <;> rw [h] <;> simp

theorem resolve_pair_defender (a d : Fighter) :
    (resolve_pair a d).2.1 = d ∨ (resolve_pair a d).2.1 = process_hit a d := by
  rcases resolve_pair_spec a d with h | ⟨_, _, h⟩ <;> rw [h] <;> simp

@[simp] theorem reset_game_fields (g : Game) :
    (reset_game g).p1.x = (WIDTH : ℚ) * 0.25 - (g.p1.width : ℚ) / 2 ∧
    (reset_game g).p1.y = (FLOOR_Y : ℚ) - (g.p1.height : ℚ) ∧
    (reset_game g).p2.x = (WIDTH : ℚ) * 0.75 - (g.p2.width : ℚ) / 2 ∧
    (reset_game g).p2.y = (FLOOR_Y : ℚ) - (g.p2.height : ℚ) ∧
    (reset_game g).p1.vx = 0 ∧ (reset_game g).p1.vy = 0 ∧
    (reset_game g).p2.vx = 0 ∧ (reset_game g).p2.vy = 0 ∧
    (reset_game g).p1.on_ground = false ∧ (reset_game g).p2.on_ground = false ∧
    (reset_game g).p1.attack_timer = 0 ∧ (reset_game g).p2.attack_timer = 0 ∧
    (reset_game g).p1.cooldown_timer = 0 ∧ (reset_game g).p2.cooldown_timer = 0 ∧
    (reset_game g).p1.attack_hit = false ∧ (reset_game g).p2.attack_hit = false ∧
    (reset_game g).p1.health = 100 ∧ (reset_game g).p2.health = 100 ∧
    (reset_game g).p1.facing = 1 ∧ (reset_game g).p2.facing = 1 ∧
    (reset_game g).p1.width = g.p1.width ∧ (reset_game g).p1.height = g.p1.height ∧
    (reset_game g).p2.width = g.p2.width ∧ (reset_game g).p2.height = g.p2.height := by
  simp [reset_game, Fighter.reset]

/-! ### Input-stage characterizations of `handle_input` -/

theorem handle_input_char (f : Fighter) (k : Keys) :
    (handle_input f k).attack_timer =
      (if k.attack = true ∧ f.attack_timer ≤ 0 ∧ f.cooldown_timer ≤ 0 then
        ATTACK_DURATION else f.attack_timer) ∧
    (handle_input f k).cooldown_timer =
      (if k.attack = true ∧ f.attack_timer ≤ 0 ∧ f.cooldown_timer ≤ 0 then
        ATTACK_COOLDOWN else f.cooldown_timer) ∧
    (handle_input f k).attack_hit =
      (if k.attack = true ∧ f.attack_timer ≤ 0 ∧ f.cooldown_timer ≤ 0 then
        false else f.attack_hit) := by
  simp [handle_input, attack_step_char]

@[simp] theorem handle_input_rest (f : Fighter) (k : Keys) :
    (handle_input f k).x = f.x ∧ (handle_input f k).y = f.y ∧
    (handle_input f k).width = f.width ∧ (handle_input f k).height = f.height ∧
    (handle_input f k).health = f.health := by
  simp [handle_input]

theorem frame_at_nonneg (f : Fighter) (k : Keys) (dt : ℤ) :
    0 ≤ (frame_fighter f k dt).attack_timer := by
  rcases apply_physics_char (handle_input f k) dt with ⟨-, -, -, -, -, hat, -⟩
  rw [frame_fighter, hat]
  exact le_max_left _ _

theorem frame_active (f : Fighter) (k : Keys) (dt : ℤ)
    (ht : 0 < f.attack_timer) :
    (frame_fighter f k dt).attack_timer = max 0 (f.attack_timer - dt) ∧
    (frame_fighter f k dt).attack_hit =
      (if max 0 (f.attack_timer - dt) = 0 then false else f.attack_hit) := by
  rcases handle_input_char f k with ⟨h1, -, h3⟩
  rw [if_neg (by omega : ¬(k.attack = true ∧ f.attack_timer ≤ 0 ∧ f.cooldown_timer ≤ 0))] at h1 h3
  rcases apply_physics_char (handle_input f k) dt with ⟨-, -, -, -, -, hat, -, hah, -⟩
  rw [frame_fighter, hat, hah, h1, h3]
  exact ⟨rfl, rfl⟩

theorem frame_hit_false (f : Fighter) (k : Keys) (dt : ℤ)
    (hh : f.attack_hit = false) :
    (frame_fighter f k dt).attack_hit = false := by
  rcases handle_input_char f k with ⟨-, -, h3⟩
  rcases apply_physics_char (handle_input f k) dt with ⟨-, -, -, -, -, -, -, hah, -⟩
  rw [frame_fighter, hah, h3]
  split_ifs <;> simp [hh]

theorem tick_at_nonneg (g : Game) (k1 k2 : Keys) (dt : ℤ) :
    0 ≤ (tickFull g k1 k2 dt).1.p1.attack_timer := by
  simp only [tickFull]
  rcases resolve_pair_spec (frame_fighter g.p1 k1 dt) (frame_fighter g.p2 k2 dt) with h1 | ⟨h1t, h1f, h1⟩ <;>
    rw [h1] <;> dsimp only <;>
    [rcases resolve_pair_defender (frame_fighter g.p2 k2 dt) (frame_fighter g.p1 k1 dt) with h2 | h2;
     rcases resolve_pair_defender (process_hit (frame_fighter g.p1 k1 dt) (frame_fighter g.p2 k2 dt)) { frame_fighter g.p1 k1 dt with attack_hit := true } with h2 | h2] <;>
    rw [h2] <;> split_ifs <;>
    simp_all [frame_at_nonneg]


theorem tick_hit_marks (g : Game) (k1 k2 : Keys) (dt : ℤ)
    (hh : (tickFull g k1 k2 dt).2.1 = true)
    (hne : (tickFull g k1 k2 dt).1.p1.attack_timer ≠ 0) :
    (tickFull g k1 k2 dt).1.p1.attack_hit = true ∧
    0 < (tickFull g k1 k2 dt).1.p1.attack_timer := by
  have hnn := frame_at_nonneg g.p1 k1 dt
  simp only [tickFull] at hh hne ⊢
  rcases resolve_pair_spec (frame_fighter g.p1 k1 dt) (frame_fighter g.p2 k2 dt) with h1 | ⟨h1t, h1f, h1⟩
  · rw [h1] at hh
    split_ifs at hh
  · rw [h1] at hh hne ⊢
    dsimp only at hh hne ⊢
    rcases resolve_pair_defender (process_hit (frame_fighter g.p1 k1 dt) (frame_fighter g.p2 k2 dt)) { frame_fighter g.p1 k1 dt with attack_hit := true } with h2 | h2 <;>
      rw [h2] at hne ⊢ <;> split_ifs at hne ⊢ <;> simp_all

theorem tick_active_flagged (g : Game) (k1 k2 : Keys) (dt : ℤ)
    (hf : g.p1.attack_hit = true) (ht : 0 < g.p1.attack_timer) :
    (tickFull g k1 k2 dt).2.1 = false ∧
    ((tickFull g k1 k2 dt).1.p1.attack_timer ≠ 0 →
      (tickFull g k1 k2 dt).1.p1.attack_hit = true ∧
      0 < (tickFull g k1 k2 dt).1.p1.attack_timer) := by
  have hfa := frame_active g.p1 k1 dt ht
  have hnn := frame_at_nonneg g.p1 k1 dt
  simp only [tickFull]
  rcases resolve_pair_spec (frame_fighter g.p1 k1 dt) (frame_fighter g.p2 k2 dt) with h1 | ⟨h1t, h1f, h1⟩
  · rw [h1]
    dsimp only
    refine ⟨by split_ifs <;> rfl, ?_⟩
    rcases resolve_pair_defender (frame_fighter g.p2 k2 dt) (frame_fighter g.p1 k1 dt) with h2 | h2 <;>
      rw [h2] <;> split_ifs <;> intro hne <;> simp_all
  · exfalso
    rcases hfa with ⟨hat, hah⟩
    rw [hat] at h1t
    rw [hah, if_neg (by omega), hf] at h1f
    exact Bool.noConfusion h1f

theorem tick_unflagged_no_hit (g : Game) (k1 k2 : Keys) (dt : ℤ)
    (hf : g.p1.attack_hit = false)
    (hh : (tickFull g k1 k2 dt).2.1 = false) :
    (tickFull g k1 k2 dt).1.p1.attack_hit = false := by
  have hff := frame_hit_false g.p1 k1 dt hf
  simp only [tickFull] at hh ⊢
  rcases resolve_pair_spec (frame_fighter g.p1 k1 dt) (frame_fighter g.p2 k2 dt) with h1 | ⟨h1t, h1f, h1⟩
  · rw [h1]
    dsimp only
    rcases resolve_pair_defender (frame_fighter g.p2 k2 dt) (frame_fighter g.p1 k1 dt) with h2 | h2 <;>
      rw [h2] <;> split_ifs <;> simp_all
  · rw [h1] at hh
    split_ifs at hh


/-- While the attacker is mid-activation and already flagged, no further
hit can ever be registered before the activation ends. -/
theorem flagged_run_zero (L : List (Keys × Keys × ℤ)) (g : Game)
    (hf : g.p1.attack_hit = true) (ht : 0 < g.p1.attack_timer) :
    countHits g L = 0 := by
  induction L generalizing g with
  | nil => rfl
  | cons i L ih =>
    obtain ⟨hh12, himp⟩ := tick_active_flagged g i.1 i.2.1 i.2.2 hf ht
    simp only [countHits, hh12, Bool.false_eq_true, if_false]
    split_ifs with hz
    · rfl
    · obtain ⟨hf2, ht2⟩ := himp hz
      simp [ih _ hf2 ht2]


/-- During one attack activation of p1 (from any point where its hit
flag is clear, for as long as `attack_timer` has not returned to 0),
at most one hit is inflicted on p2, regardless of how long the hitbox
overlap persists. -/
theorem countHits_le_one (g : Game) (L : List (Keys × Keys × ℤ))
    (hf : g.p1.attack_hit = false) : countHits g L ≤ 1 := by
  induction L generalizing g with
  | nil => simp [countHits]
  | cons i L ih =>
    simp only [countHits]
    cases hhit : (tickFull g i.1 i.2.1 i.2.2).2.1 with
    | false =>
      simp only [hhit, Bool.false_eq_true, if_false]
      split_ifs with hz
      · simp
      · simpa using ih _ (tick_unflagged_no_hit g i.1 i.2.1 i.2.2 hf hhit)
    | true =>
      simp only [hhit, if_true]
      split_ifs with hz
      · exact le_refl 1
      · obtain ⟨hf2, ht2⟩ := tick_hit_marks g i.1 i.2.1 i.2.2 hhit hz
        simp [flagged_run_zero L _ hf2 ht2]


theorem frame_health (f : Fighter) (k : Keys) (dt : ℤ) :
    (frame_fighter f k dt).health = f.health := by
  rcases apply_physics_char (handle_input f k) dt with
    ⟨-, -, -, -, -, -, -, -, -, -, -, h⟩
  rw [frame_fighter, h]
  exact (handle_input_rest f k).2.2.2.2

theorem resolve_health_1 (a d : Fighter) :
    (resolve_pair a d).1.health = a.health := by
  rcases resolve_pair_attacker a d with h | h <;> rw [h]

theorem resolve_health_2 (a d : Fighter) :
    (resolve_pair a d).2.1.health = d.health ∨
    (resolve_pair a d).2.1.health = max 0 (d.health - ATTACK_DAMAGE) := by
  rcases resolve_pair_defender a d with h | h <;> rw [h]
  · exact Or.inl rfl
  · exact Or.inr (by simp [process_hit])

theorem tick_health_1 (g : Game) (k1 k2 : Keys) (dt : ℤ) :
    (tick g k1 k2 dt).p1.health = 100 ∨
    (tick g k1 k2 dt).p1.health = g.p1.health ∨
    (tick g k1 k2 dt).p1.health = max 0 (g.p1.health - ATTACK_DAMAGE) := by
  simp only [tick, tickFull]
  set a1 := frame_fighter g.p1 k1 dt with ha1
  set a2 := frame_fighter g.p2 k2 dt with ha2
  set r1 := resolve_pair a1 a2 with hr1
  set r2 := resolve_pair r1.2.1 r1.1 with hr2
  split_ifs with hc
  · left; simp
  · have hfh : a1.health = g.p1.health := frame_health g.p1 k1 dt
    have h1 : r1.1.health = a1.health := resolve_health_1 a1 a2
    have h2 := resolve_health_2 r1.2.1 r1.1
    dsimp only
    rcases h2 with h2 | h2
    · right; left; rw [h2, h1, hfh]
    · right; right; rw [h2, h1, hfh]

theorem tick_health_2 (g : Game) (k1 k2 : Keys) (dt : ℤ) :
    (tick g k1 k2 dt).p2.health = 100 ∨
    (tick g k1 k2 dt).p2.health = g.p2.health ∨
    (tick g k1 k2 dt).p2.health = max 0 (g.p2.health - ATTACK_DAMAGE) := by
  simp only [tick, tickFull]
  set a1 := frame_fighter g.p1 k1 dt with ha1
  set a2 := frame_fighter g.p2 k2 dt with ha2
  set r1 := resolve_pair a1 a2 with hr1
  set r2 := resolve_pair r1.2.1 r1.1 with hr2
  split_ifs with hc
  · left; simp
  · have hfh : a2.health = g.p2.health := frame_health g.p2 k2 dt
    have h1 : r2.1.health = r1.2.1.health := resolve_health_1 r1.2.1 r1.1
    have h2 := resolve_health_2 a1 a2
    dsimp only
    rcases h2 with h2 | h2
    · right; left; rw [h1, h2, hfh]
    · right; right; rw [h1, h2, hfh]


/-! ### Concrete sample states used by witnesses -/

/-- No key held. -/
def keysNone : Keys := ⟨false, false, false, false⟩

/-- A grounded fighter of the game's actual geometry (60×80), standing
at Player 1's start position. -/
def fSample : Fighter :=
  ⟨195, 340, 60, 80, 1, 0, 0, true, 0, 0, false, 100⟩

/-- A sample two-fighter game state. -/
def gSample : Game := ⟨fSample, { fSample with x := 645 }⟩

/-- C1: each fighter's health stays an integer in [0, 100]: damage is
`max 0 (health - ATTACK_DAMAGE)`, no operation except reset (which sets
100) increases health, and a tick preserves the [0, 100] invariant. -/
theorem health_in_range :
    (∀ a d : Fighter, (process_hit a d).health = max 0 (d.health - ATTACK_DAMAGE)) ∧
    (∀ a d : Fighter, 0 ≤ (process_hit a d).health) ∧
    (∀ a d : Fighter, 0 ≤ d.health → (process_hit a d).health ≤ d.health) ∧
    (∀ (f : Fighter) (sx sy : ℚ), (Fighter.reset f sx sy).health = 100) ∧
    (∀ (f : Fighter) (k : Keys), (handle_input f k).health = f.health) ∧
    (∀ (f : Fighter) (dt : ℤ), (apply_physics f dt).health = f.health) ∧
    (∀ g : Game, health_inv (reset_game g)) ∧
    (∀ (g : Game) (k1 k2 : Keys) (dt : ℤ),
      health_inv g → health_inv (tick g k1 k2 dt)) := by
  refine ⟨fun a d => rfl, fun a d => le_max_left _ _, ?_, fun f sx sy => rfl,
    fun f k => (handle_input_rest f k).2.2.2.2, ?_, ?_, ?_⟩
  · intro a d h
    simp only [process_hit, ATTACK_DAMAGE]
    omega
  · intro f dt
    rcases apply_physics_char f dt with ⟨-, -, -, -, -, -, -, -, -, -, -, h⟩
    exact h
  · intro g
    simp [health_inv]
  · intro g k1 k2 dt hinv
    have h1 := tick_health_1 g k1 k2 dt
    have h2 := tick_health_2 g k1 k2 dt
    simp only [ATTACK_DAMAGE] at h1 h2
    unfold health_inv at hinv ⊢
    rcases h1 with h1 | h1 | h1 <;> rcases h2 with h2 | h2 | h2 <;>
      rw [h1, h2] <;> omega

/-- Witness for C1 at concrete inputs: the damage bound at a concrete
defender and invariant preservation across one concrete tick. -/
theorem health_in_range_witness :
    (process_hit fSample fSample).health ≤ fSample.health ∧
    health_inv (tick gSample keysNone keysNone 16) :=
  ⟨health_in_range.2.2.1 fSample fSample (by decide),
   health_in_range.2.2.2.2.2.2.2 gSample keysNone keysNone 16 (by decide)⟩


theorem pytrunc_intCast (n : ℤ) : pytrunc (n : ℚ) = n := by
  simp [pytrunc, Rat.intCast_num, Rat.intCast_den, Int.tdiv_one]

@[simp] theorem pytrunc_ofNat (n : ℕ) : pytrunc (OfNat.ofNat n : ℚ) = OfNat.ofNat n := by
  simpa using pytrunc_intCast (OfNat.ofNat n)

theorem resolve_pair_1_fields (a d : Fighter) :
    (resolve_pair a d).1.x = a.x ∧ (resolve_pair a d).1.y = a.y ∧
    (resolve_pair a d).1.width = a.width ∧ (resolve_pair a d).1.height = a.height ∧
    (resolve_pair a d).1.facing = a.facing ∧ (resolve_pair a d).1.vx = a.vx ∧
    (resolve_pair a d).1.vy = a.vy ∧ (resolve_pair a d).1.on_ground = a.on_ground ∧
    (resolve_pair a d).1.attack_timer = a.attack_timer ∧
    (resolve_pair a d).1.cooldown_timer = a.cooldown_timer := by
  rcases resolve_pair_attacker a d with h | h <;> rw [h] <;> simp

theorem resolve_pair_2_fields (a d : Fighter) :
    (resolve_pair a d).2.1.x = d.x ∧ (resolve_pair a d).2.1.y = d.y ∧
    (resolve_pair a d).2.1.width = d.width ∧
    (resolve_pair a d).2.1.height = d.height ∧
    (resolve_pair a d).2.1.facing = d.facing ∧
    (resolve_pair a d).2.1.on_ground = d.on_ground ∧
    (resolve_pair a d).2.1.attack_timer = d.attack_timer ∧
    (resolve_pair a d).2.1.cooldown_timer = d.cooldown_timer ∧
    (resolve_pair a d).2.1.attack_hit = d.attack_hit := by
  rcases resolve_pair_defender a d with h | h <;> rw [h] <;> simp


/-- Attack key held. -/
def keysAtk : Keys := ⟨false, false, false, true⟩

/-- A fighter still in cooldown (attack window over, cooldown running). -/
def fCool : Fighter := ⟨195, 340, 60, 80, 1, 0, 0, true, 0, 300, false, 100⟩

/-- C4: input application starts an attack exactly when the attack key
is held and both `attack_timer ≤ 0` and `cooldown_timer ≤ 0`, setting
`attack_timer = ATTACK_DURATION`, `cooldown_timer = ATTACK_COOLDOWN`,
`attack_hit = false`; while `cooldown_timer > 0` the three fields are
left unchanged. -/
theorem attack_start_gating (f : Fighter) (k : Keys) :
    ((handle_input f k).attack_timer =
      if k.attack = true ∧ f.attack_timer ≤ 0 ∧ f.cooldown_timer ≤ 0 then
        ATTACK_DURATION else f.attack_timer) ∧
    ((handle_input f k).cooldown_timer =
      if k.attack = true ∧ f.attack_timer ≤ 0 ∧ f.cooldown_timer ≤ 0 then
        ATTACK_COOLDOWN else f.cooldown_timer) ∧
    ((handle_input f k).attack_hit =
      if k.attack = true ∧ f.attack_timer ≤ 0 ∧ f.cooldown_timer ≤ 0 then
        false else f.attack_hit) ∧
    (0 < f.cooldown_timer →
      (handle_input f k).attack_timer = f.attack_timer ∧
      (handle_input f k).cooldown_timer = f.cooldown_timer ∧
      (handle_input f k).attack_hit = f.attack_hit) := by
  obtain ⟨h1, h2, h3⟩ := handle_input_char f k
  refine ⟨h1, h2, h3, fun hc => ?_⟩
  rw [h1, h2, h3, if_neg (by omega), if_neg (by omega), if_neg (by omega)]
  exact ⟨rfl, rfl, rfl⟩

/-- Witness for C4: holding attack during cooldown leaves the attack
state of a concrete fighter unchanged. -/
theorem attack_start_gating_witness :
    (handle_input fCool keysAtk).attack_timer = fCool.attack_timer ∧
    (handle_input fCool keysAtk).cooldown_timer = fCool.cooldown_timer ∧
    (handle_input fCool keysAtk).attack_hit = fCool.attack_hit :=
  (attack_start_gating fCool keysAtk).2.2.2 (by decide)

/-- C5: physics integration computes, in order, `x += vx`,
`vy += GRAVITY`, `y += vy`, floor collision, the unconditional x clamp,
then timer decay; the hit flag is cleared exactly when the decayed
attack timer is 0. -/
theorem physics_integration_order (f : Fighter) (dt : ℤ) :
    apply_physics f dt =
      { f with
          x := clamp (f.x + f.vx) 20 ((WIDTH : ℚ) - (f.width : ℚ) - 20),
          y := if f.y + (f.vy + GRAVITY) + (f.height : ℚ) ≥ (FLOOR_Y : ℚ) then
              (FLOOR_Y : ℚ) - (f.height : ℚ) else f.y + (f.vy + GRAVITY),
          vy := if f.y + (f.vy + GRAVITY) + (f.height : ℚ) ≥ (FLOOR_Y : ℚ) then 0
              else f.vy + GRAVITY,
          on_ground := if f.y + (f.vy + GRAVITY) + (f.height : ℚ) ≥ (FLOOR_Y : ℚ) then
              true else false,
          attack_timer := max 0 (f.attack_timer - dt),
          cooldown_timer := max 0 (f.cooldown_timer - dt),
          attack_hit := if max 0 (f.attack_timer - dt) = 0 then false
              else f.attack_hit } ∧
    ((apply_physics f dt).attack_timer = 0 → (apply_physics f dt).attack_hit = false) := by
  obtain ⟨hx, hy, hvx, hvy, hog, hat, hct, hah, hw, hh, hfc, hhl⟩ :=
    apply_physics_char f dt
  constructor
  · ext <;> simp [hx, hy, hvx, hvy, hog, hat, hct, hah, hw, hh, hfc, hhl]
  · intro h0
    rw [hat] at h0
    rw [hah, if_pos h0]

/-- Witness for C5: after a concrete idle frame the attack timer is 0
and hence the hit flag is clear. -/
theorem physics_integration_order_witness :
    (apply_physics fSample 16).attack_hit = false :=
  (physics_integration_order fSample 16).2
    (by rw [(apply_physics_char fSample 16).2.2.2.2.2.1]; decide)

/-- C10: the frame delta only influences timer decay: position,
velocity and ground state after physics integration are identical for
any two deltas. -/
theorem physics_dt_independent (f : Fighter) (dt1 dt2 : ℤ) :
    (apply_physics f dt1).x = (apply_physics f dt2).x ∧
    (apply_physics f dt1).y = (apply_physics f dt2).y ∧
    (apply_physics f dt1).vx = (apply_physics f dt2).vx ∧
    (apply_physics f dt1).vy = (apply_physics f dt2).vy ∧
    (apply_physics f dt1).on_ground = (apply_physics f dt2).on_ground := by
  obtain ⟨hx1, hy1, hvx1, hvy1, hog1, -⟩ := apply_physics_char f dt1
  obtain ⟨hx2, hy2, hvx2, hvy2, hog2, -⟩ := apply_physics_char f dt2
  rw [hx1, hy1, hvx1, hvy1, hog1, hx2, hy2, hvx2, hvy2, hog2]
  exact ⟨rfl, rfl, rfl, rfl, rfl⟩

/-- C7: for any fighter whose width fits the arena
(`width ≤ WIDTH - 40`), after every physics step `x` lies in
`[20, WIDTH - width - 20]`; the clamp is unconditional. -/
theorem x_stays_in_arena (f : Fighter) (dt : ℤ)
    (hw : f.width ≤ WIDTH - 40) :
    20 ≤ (apply_physics f dt).x ∧
    (apply_physics f dt).x ≤ (WIDTH : ℚ) - ((apply_physics f dt).width : ℚ) - 20 := by
  obtain ⟨hx, -, -, -, -, -, -, -, hwidth, -⟩ := apply_physics_char f dt
  rw [hx, hwidth]
  unfold clamp
  constructor
  · exact le_max_left _ _
  · apply max_le
    · have hq : (f.width : ℚ) ≤ 860 := by exact_mod_cast (by simpa [WIDTH] using hw)
      simp only [WIDTH]
      push_cast
      linarith
    · exact min_le_right _ _

/-- Witness for C7: the concrete sample fighter stays within bounds. -/
theorem x_stays_in_arena_witness :
    20 ≤ (apply_physics fSample 16).x ∧
    (apply_physics fSample 16).x ≤ (WIDTH : ℚ) - ((apply_physics fSample 16).width : ℚ) - 20 :=
  x_stays_in_arena fSample 16 (by decide)


/-- C6: the attack hitbox is a pure function of state: absent iff
`attack_timer ≤ 0`; otherwise a 50 × (height-10) box inset 5 from the
top, at `x + width + 30 - 50` when facing +1 and at `x - 30` when
facing -1 (coordinates truncated to ints by the Rect constructor). -/
theorem attack_rect_spec (f : Fighter) :
    (get_attack_rect f = none ↔ f.attack_timer ≤ 0) ∧
    (0 < f.attack_timer → f.facing = 1 →
      get_attack_rect f =
        some ⟨pytrunc (f.x + (f.width : ℚ) + 30 - 50), pytrunc (f.y + 5),
          50, f.height - 10⟩) ∧
    (0 < f.attack_timer → f.facing = -1 →
      get_attack_rect f =
        some ⟨pytrunc (f.x - 30), pytrunc (f.y + 5), 50, f.height - 10⟩) := by
  refine ⟨get_attack_rect_none_iff f, ?_, ?_⟩
  · intro ht hf
    simp only [get_attack_rect, if_neg (by omega : ¬f.attack_timer ≤ 0), hf, if_true]
    norm_num
  · intro ht hf
    have : ¬(f.facing = 1) := by rw [hf]; decide
    simp only [get_attack_rect, if_neg (by omega : ¬f.attack_timer ≤ 0), this, if_false]

/-- A fighter with an attack in progress (timer 200), facing right. -/
def fAtk : Fighter := ⟨100, 340, 60, 80, 1, 0, 0, true, 200, 400, false, 100⟩

/-- A defender standing in fAtk's reach. -/
def fDef : Fighter := ⟨150, 340, 60, 80, -1, 0, 0, true, 0, 0, false, 100⟩

/-- Witness for C6: the concrete attacker's hitbox is at (140, 345),
size 50 × 70. -/
theorem attack_rect_spec_witness :
    get_attack_rect fAtk = some ⟨140, 345, 50, 70⟩ := by
  have h := (attack_rect_spec fAtk).2.1 (by decide) rfl
  rw [h]
  norm_num [fAtk]
  exact ⟨by decide, by decide⟩

/-- A game state whose fighters differ from `gSample` in every
non-geometry field. -/
def gSample2 : Game :=
  ⟨{ fSample with x := 11, y := 2, facing := -1, vx := 3, vy := -4,
                  on_ground := false, attack_timer := 7, cooldown_timer := 9,
                  attack_hit := true, health := 3 },
   { fSample with x := 645, health := 55 }⟩

/-- C9: reset is a constant function of everything except the fixed
geometry: both fighters go to their designated start positions resting
on the floor, with zero velocity and timers, health 100 and facing +1;
hence reset is idempotent. -/
theorem reset_properties :
    (∀ g g' : Game, g.p1.width = g'.p1.width → g.p1.height = g'.p1.height →
      g.p2.width = g'.p2.width → g.p2.height = g'.p2.height →
      reset_game g = reset_game g') ∧
    (∀ g : Game, reset_game (reset_game g) = reset_game g) ∧
    (∀ g : Game,
      (reset_game g).p1.x = (WIDTH : ℚ) * 0.25 - ((reset_game g).p1.width : ℚ) / 2 ∧
      (reset_game g).p2.x = (WIDTH : ℚ) * 0.75 - ((reset_game g).p2.width : ℚ) / 2 ∧
      (reset_game g).p1.y = (FLOOR_Y : ℚ) - ((reset_game g).p1.height : ℚ) ∧
      (reset_game g).p2.y = (FLOOR_Y : ℚ) - ((reset_game g).p2.height : ℚ) ∧
      (reset_game g).p1.vx = 0 ∧ (reset_game g).p1.vy = 0 ∧
      (reset_game g).p2.vx = 0 ∧ (reset_game g).p2.vy = 0 ∧
      (reset_game g).p1.attack_timer = 0 ∧ (reset_game g).p1.cooldown_timer = 0 ∧
      (reset_game g).p2.attack_timer = 0 ∧ (reset_game g).p2.cooldown_timer = 0 ∧
      (reset_game g).p1.attack_hit = false ∧ (reset_game g).p2.attack_hit = false ∧
      (reset_game g).p1.health = 100 ∧ (reset_game g).p2.health = 100 ∧
      (reset_game g).p1.facing = 1 ∧ (reset_game g).p2.facing = 1) := by
  refine ⟨?_, ?_, ?_⟩
  · intro g g' hw1 hh1 hw2 hh2
    simp [reset_game, Fighter.reset, hw1, hh1, hw2, hh2]
  · intro g
    simp [reset_game, Fighter.reset]
  · intro g
    simp [reset_game, Fighter.reset]

/-- Witness for C9: two concrete states differing in every dynamic
field reset to the same state. -/
theorem reset_properties_witness :
    reset_game gSample2 = reset_game gSample :=
  reset_properties.1 gSample2 gSample (by decide) (by decide) (by decide) (by decide)


theorem get_attack_rect_some_w (f : Fighter) (r : Rect)
    (h : get_attack_rect f = some r) : r.w = 50 := by
  simp only [get_attack_rect] at h
  split_ifs at h <;> first
  | exact Option.noConfusion h
  | (injection h with h'; rw [← h'])

theorem fAtk_rect : get_attack_rect fAtk = some ⟨140, 345, 50, 70⟩ := by
  norm_num [get_attack_rect, fAtk]
  exact ⟨by decide, by decide⟩

/-- C3: combat resolution with an active, unflagged attacker whose
hitbox overlaps the defender applies exactly one hit: the flag is set,
health drops by `ATTACK_DAMAGE = 12` clamped at 0, and the defender's
velocity is overwritten with the knockback impulse; concretely a
100-health defender hit by a right-facing attacker ends at health 88,
vx 10, vy -6. -/
theorem hit_application :
    (∀ (a d : Fighter) (r : Rect), get_attack_rect a = some r →
      r.h ≠ 0 → a.attack_hit = false →
      colliderect r d.rect = true →
      resolve_pair a d =
        ({ a with attack_hit := true },
         { d with health := max 0 (d.health - ATTACK_DAMAGE),
                  vx := KNOCKBACK_X * (a.facing : ℚ), vy := -KNOCKBACK_Y },
         true)) ∧
    ATTACK_DAMAGE = 12 ∧ KNOCKBACK_X = 10 ∧ KNOCKBACK_Y = 6 ∧
    ((resolve_pair fAtk fDef).2.1.health = 88 ∧
     (resolve_pair fAtk fDef).2.1.vx = 10 ∧
     (resolve_pair fAtk fDef).2.1.vy = -6 ∧
     (resolve_pair fAtk fDef).1.attack_hit = true) := by
  have gen : ∀ (a d : Fighter) (r : Rect), get_attack_rect a = some r →
      r.h ≠ 0 → a.attack_hit = false →
      colliderect r d.rect = true →
      resolve_pair a d =
        ({ a with attack_hit := true },
         { d with health := max 0 (d.health - ATTACK_DAMAGE),
                  vx := KNOCKBACK_X * (a.facing : ℚ), vy := -KNOCKBACK_Y },
         true) := by
    intro a d r hr hh hf hc
    have hw : r.w ≠ 0 := by rw [get_attack_rect_some_w a r hr]; decide
    unfold resolve_pair
    rw [hr]
    simp only []
    rw [if_pos ⟨⟨hw, hh⟩, hf, hc⟩]
    rfl
  refine ⟨gen, rfl, rfl, rfl, ?_⟩
  have h := gen fAtk fDef ⟨140, 345, 50, 70⟩ fAtk_rect (by decide)
    rfl (by decide)
  rw [h]
  refine ⟨by decide, ?_, ?_, rfl⟩
  · norm_num [KNOCKBACK_X, fAtk]
  · norm_num [KNOCKBACK_Y]

/-- Witness for C3: the general hit rule applied at the concrete
attacker/defender pair. -/
theorem hit_application_witness :
    resolve_pair fAtk fDef =
      ({ fAtk with attack_hit := true },
       { fDef with health := max 0 (fDef.health - ATTACK_DAMAGE),
                   vx := KNOCKBACK_X * (fAtk.facing : ℚ), vy := -KNOCKBACK_Y },
       true) :=
  hit_application.1 fAtk fDef ⟨140, 345, 50, 70⟩ fAtk_rect (by decide)
    rfl (by decide)


theorem floor_phys (f : Fighter) (dt : ℤ) :
    (apply_physics f dt).y + ((apply_physics f dt).height : ℚ) ≤ (FLOOR_Y : ℚ) ∧
    ((apply_physics f dt).on_ground = true ↔
      (apply_physics f dt).y + ((apply_physics f dt).height : ℚ) = (FLOOR_Y : ℚ)) := by
  obtain ⟨-, hy, -, -, hog, -⟩ := apply_physics_char f dt
  have hh : (apply_physics f dt).height = f.height :=
    ((apply_physics_char f dt).2.2.2.2.2.2.2.2.2.1)
  rw [hy, hog, hh]
  split_ifs with hg
  · constructor
    · ring_nf
      exact le_refl _
    · simp only [true_iff]
      ring
  · push_neg at hg
    constructor
    · linarith
    · simp only [Bool.false_eq_true, false_iff]
      intro habs
      linarith

theorem tick_dead_reset (g : Game) (k1 k2 : Keys) (dt : ℤ)
    (h : g.p1.health ≤ 0) :
    (tick g k1 k2 dt).p1.on_ground = false ∧
    (tick g k1 k2 dt).p1.y = (FLOOR_Y : ℚ) - ((tick g k1 k2 dt).p1.height : ℚ) := by
  simp only [tick, tickFull]
  set a1 := frame_fighter g.p1 k1 dt with ha1
  set a2 := frame_fighter g.p2 k2 dt with ha2
  set r1 := resolve_pair a1 a2 with hr1
  set r2 := resolve_pair r1.2.1 r1.1 with hr2
  have hh1 : r1.1.health = g.p1.health := by
    rw [resolve_health_1 a1 a2, frame_health]
  have hdead : r2.2.1.health ≤ 0 := by
    rcases resolve_health_2 r1.2.1 r1.1 with h2 | h2
    · rw [h2, hh1]; exact h
    · rw [h2, hh1]; simp only [ATTACK_DAMAGE]; omega
  rw [if_pos (Or.inl hdead)]
  simp

/-- A game state in which p1 is already dead (health 0). -/
def gDead : Game := ⟨{ fSample with health := 0 }, { fSample with x := 645 }⟩

/-- C8 fails as stated: in the tick in which a round reset fires, the
reset leaves the fighter resting exactly at the floor line but with
`on_ground = False` (line 48 of `game.py`), so "on_ground iff the floor
bound is reached" is violated immediately after a round reset. -/
theorem floor_iff_cex :
    ¬(((tick gDead keysNone keysNone 16).p1.on_ground = true) ↔
      (tick gDead keysNone keysNone 16).p1.y +
        ((tick gDead keysNone keysNone 16).p1.height : ℚ) = (FLOOR_Y : ℚ)) := by
  obtain ⟨hog, hy⟩ := tick_dead_reset gDead keysNone keysNone 16 (by decide)
  intro hiff
  have hbound : (tick gDead keysNone keysNone 16).p1.y +
      ((tick gDead keysNone keysNone 16).p1.height : ℚ) = (FLOOR_Y : ℚ) := by
    rw [hy]; ring
  have := hiff.2 hbound
  rw [hog] at this
  exact Bool.noConfusion this

/-- C8 (amended): after every physics-integration step `y + height`
never exceeds `FLOOR_Y` and `on_ground` holds iff the bound is reached;
after every full tick the bound `y + height ≤ FLOOR_Y` still holds; but
immediately after a round reset the fighter rests exactly on the floor
line with `on_ground = false` (restored at the next physics step). -/
theorem floor_clamp_amended :
    (∀ (f : Fighter) (dt : ℤ),
      (apply_physics f dt).y + ((apply_physics f dt).height : ℚ) ≤ (FLOOR_Y : ℚ) ∧
      ((apply_physics f dt).on_ground = true ↔
        (apply_physics f dt).y + ((apply_physics f dt).height : ℚ) = (FLOOR_Y : ℚ))) ∧
    (∀ (g : Game) (k1 k2 : Keys) (dt : ℤ),
      (tick g k1 k2 dt).p1.y + ((tick g k1 k2 dt).p1.height : ℚ) ≤ (FLOOR_Y : ℚ) ∧
      (tick g k1 k2 dt).p2.y + ((tick g k1 k2 dt).p2.height : ℚ) ≤ (FLOOR_Y : ℚ)) ∧
    (∀ g : Game,
      (reset_game g).p1.y + ((reset_game g).p1.height : ℚ) = (FLOOR_Y : ℚ) ∧
      (reset_game g).p1.on_ground = false ∧
      (reset_game g).p2.y + ((reset_game g).p2.height : ℚ) = (FLOOR_Y : ℚ) ∧
      (reset_game g).p2.on_ground = false) := by
  refine ⟨floor_phys, ?_, ?_⟩
  · intro g k1 k2 dt
    simp only [tick, tickFull]
    set a1 := frame_fighter g.p1 k1 dt with ha1
    set a2 := frame_fighter g.p2 k2 dt with ha2
    set r1 := resolve_pair a1 a2 with hr1
    set r2 := resolve_pair r1.2.1 r1.1 with hr2
    have hb1 : a1.y + (a1.height : ℚ) ≤ (FLOOR_Y : ℚ) :=
      (floor_phys (handle_input g.p1 k1) dt).1
    have hb2 : a2.y + (a2.height : ℚ) ≤ (FLOOR_Y : ℚ) :=
      (floor_phys (handle_input g.p2 k2) dt).1
    have hy1 : r2.2.1.y = a1.y := by
      rw [(resolve_pair_2_fields r1.2.1 r1.1).2.1, (resolve_pair_1_fields a1 a2).2.1]
    have hh1 : r2.2.1.height = a1.height := by
      rw [(resolve_pair_2_fields r1.2.1 r1.1).2.2.2.1,
        (resolve_pair_1_fields a1 a2).2.2.2.1]
    have hy2 : r2.1.y = a2.y := by
      rw [(resolve_pair_1_fields r1.2.1 r1.1).2.1, (resolve_pair_2_fields a1 a2).2.1]
    have hh2 : r2.1.height = a2.height := by
      rw [(resolve_pair_1_fields r1.2.1 r1.1).2.2.2.1,
        (resolve_pair_2_fields a1 a2).2.2.2.1]
    split_ifs with hc
    · constructor <;> simp
    · dsimp only
      rw [hy1, hh1, hy2, hh2]
      exact ⟨hb1, hb2⟩
  · intro g
    refine ⟨by simp, by simp, by simp, by simp⟩


/-- Number of hits p2 lands on p1 along a run, counted while p2's attack
activation is in progress (mirror of `countHits`). -/
def countHits2 : Game → List (Keys × Keys × ℤ) → ℕ
  | _, [] => 0
  | g, i :: rest =>
    let r := tickFull g i.1 i.2.1 i.2.2
    let n : ℕ := if r.2.2 then 1 else 0
    if r.1.p2.attack_timer = 0 then n else n + countHits2 r.1 rest

theorem tick_hit_marks2 (g : Game) (k1 k2 : Keys) (dt : ℤ)
    (hh : (tickFull g k1 k2 dt).2.2 = true)
    (hne : (tickFull g k1 k2 dt).1.p2.attack_timer ≠ 0) :
    (tickFull g k1 k2 dt).1.p2.attack_hit = true ∧
    0 < (tickFull g k1 k2 dt).1.p2.attack_timer := by
  simp only [tickFull] at hh hne ⊢
  set a1 := frame_fighter g.p1 k1 dt with ha1
  set a2 := frame_fighter g.p2 k2 dt with ha2
  set r1 := resolve_pair a1 a2 with hr1
  rcases resolve_pair_spec r1.2.1 r1.1 with h2 | ⟨h2t, h2f, h2⟩
  · rw [h2] at hh
    split_ifs at hh
  · rw [h2] at hne ⊢
    split_ifs at hne ⊢ <;> simp_all

theorem tick_active_flagged2 (g : Game) (k1 k2 : Keys) (dt : ℤ)
    (hf : g.p2.attack_hit = true) (ht : 0 < g.p2.attack_timer) :
    (tickFull g k1 k2 dt).2.2 = false ∧
    ((tickFull g k1 k2 dt).1.p2.attack_timer ≠ 0 →
      (tickFull g k1 k2 dt).1.p2.attack_hit = true ∧
      0 < (tickFull g k1 k2 dt).1.p2.attack_timer) := by
  obtain ⟨hat, hah⟩ := frame_active g.p2 k2 dt ht
  have hnn := frame_at_nonneg g.p2 k2 dt
  simp only [tickFull]
  set a1 := frame_fighter g.p1 k1 dt with ha1
  set a2 := frame_fighter g.p2 k2 dt with ha2
  set r1 := resolve_pair a1 a2 with hr1
  have hb2t : r1.2.1.attack_timer = a2.attack_timer :=
    (resolve_pair_2_fields a1 a2).2.2.2.2.2.2.1
  have hb2h : r1.2.1.attack_hit = a2.attack_hit :=
    (resolve_pair_2_fields a1 a2).2.2.2.2.2.2.2.2
  rcases resolve_pair_spec r1.2.1 r1.1 with h2 | ⟨h2t, h2f, h2⟩
  · rw [h2]
    dsimp only
    refine ⟨by split_ifs <;> rfl, ?_⟩
    split_ifs with hc
    · intro hne; simp at hne
    · intro hne
      rw [hb2t, hat] at hne ⊢
      rw [hb2h, hah, if_neg hne]
      exact ⟨hf, by omega⟩
  · exfalso
    rw [hb2t, hat] at h2t
    rw [hb2h, hah, if_neg (by omega), hf] at h2f
    exact Bool.noConfusion h2f

theorem tick_unflagged_no_hit2 (g : Game) (k1 k2 : Keys) (dt : ℤ)
    (hf : g.p2.attack_hit = false)
    (hh : (tickFull g k1 k2 dt).2.2 = false) :
    (tickFull g k1 k2 dt).1.p2.attack_hit = false := by
  have hff := frame_hit_false g.p2 k2 dt hf
  simp only [tickFull] at hh ⊢
  set a1 := frame_fighter g.p1 k1 dt with ha1
  set a2 := frame_fighter g.p2 k2 dt with ha2
  set r1 := resolve_pair a1 a2 with hr1
  have hb2h : r1.2.1.attack_hit = a2.attack_hit :=
    (resolve_pair_2_fields a1 a2).2.2.2.2.2.2.2.2
  rcases resolve_pair_spec r1.2.1 r1.1 with h2 | ⟨h2t, h2f, h2⟩
  · rw [h2]
    dsimp only
    split_ifs
    · simp
    · rw [hb2h]; exact hff
  · rw [h2] at hh
    split_ifs at hh

theorem flagged_run_zero2 (L : List (Keys × Keys × ℤ)) (g : Game)
    (hf : g.p2.attack_hit = true) (ht : 0 < g.p2.attack_timer) :
    countHits2 g L = 0 := by
  induction L generalizing g with
  | nil => rfl
  | cons i L ih =>
    obtain ⟨hh21, himp⟩ := tick_active_flagged2 g i.1 i.2.1 i.2.2 hf ht
    simp only [countHits2, hh21, Bool.false_eq_true, if_false]
    split_ifs with hz
    · rfl
    · obtain ⟨hf2, ht2⟩ := himp hz
      simp [ih _ hf2 ht2]

theorem countHits2_le_one (g : Game) (L : List (Keys × Keys × ℤ))
    (hf : g.p2.attack_hit = false) : countHits2 g L ≤ 1 := by
  induction L generalizing g with
  | nil => simp [countHits2]
  | cons i L ih =>
    simp only [countHits2]
    cases hhit : (tickFull g i.1 i.2.1 i.2.2).2.2 with
    | false =>
      simp only [hhit, Bool.false_eq_true, if_false]
      split_ifs with hz
      · simp
      · simpa using ih _ (tick_unflagged_no_hit2 g i.1 i.2.1 i.2.2 hf hhit)
    | true =>
      simp only [hhit, if_true]
      split_ifs with hz
      · exact le_refl 1
      · obtain ⟨hf2, ht2⟩ := tick_hit_marks2 g i.1 i.2.1 i.2.2 hhit hz
        simp [flagged_run_zero2 L _ hf2 ht2]

/-- C2: within a single attack activation (hit flag clear, until the
attack timer returns to 0), each attacker inflicts at most one hit on
the other fighter, however long the hitbox overlap persists; the
`attack_hit` flag enforces this in both attacker→defender directions. -/
theorem at_most_one_hit_per_activation :
    (∀ (g : Game) (L : List (Keys × Keys × ℤ)),
      g.p1.attack_hit = false → countHits g L ≤ 1) ∧
    (∀ (g : Game) (L : List (Keys × Keys × ℤ)),
      g.p2.attack_hit = false → countHits2 g L ≤ 1) :=
  ⟨countHits_le_one, countHits2_le_one⟩

/-- Witness for C2 at a concrete state and run. -/
theorem at_most_one_hit_per_activation_witness :
    countHits gSample [(keysNone, keysNone, 16)] ≤ 1 ∧
    countHits2 gSample [(keysNone, keysNone, 16)] ≤ 1 :=
  ⟨at_most_one_hit_per_activation.1 gSample [(keysNone, keysNone, 16)] rfl,
   at_most_one_hit_per_activation.2 gSample [(keysNone, keysNone, 16)] rfl⟩

end FightGame










